import Mathlib

/-!
# chip_b_espnow: the application glue of `main/main.c`

A shallow embedding of `sample_packet_callback` and `app_main`.

The two functions compute nothing; all they do is call into the logging
macros, the scheduler and the `interchip_comm` component.  Each such call is
recorded as an `Event`, and a function is embedded as the list of events it
performs, in program order.

`uint8_t` arguments are natural numbers (a byte is a natural number below
256; no arithmetic is done on them, so no reduction modulo 256 occurs).

The headers `protocol_types.h` and `config.h` are not part of the source
tree, so the constants they define are collected in `Consts` and every
definition takes them as a parameter.
-/

set_option linter.unusedVariables false

namespace ChipB

/-! ## Constants of the missing headers -/

/-- The compile-time constants `main.c` takes from `protocol_types.h`,
`config.h` and `interchip_comm.h`, none of which is in the source tree. -/
structure Consts where
  DEVICE_OWN_ID : Nat
  DEVICE_DISPLAY : Nat
  MSG_TOUCH_EVENT : Nat
  MSG_ESPNOW_DATA : Nat
  MSG_STATUS_UPDATE : Nat
  MSG_NOTIFICATION : Nat
  MSG_ACK : Nat
  MSG_NACK : Nat
  ERR_OK : Nat
  ERR_UNKNOWN_TYPE : Nat
  sizeof_ack_nack_t : Nat
  sizeof_notification_t : Nat
  deriving DecidableEq, Repr

/-- The four `case` labels of the `switch` in `sample_packet_callback` are
pairwise different (C rejects a `switch` with a duplicated label). -/
def Consts.caseLabelsDistinct (c : Consts) : Prop :=
  c.MSG_TOUCH_EVENT ≠ c.MSG_ESPNOW_DATA ∧ c.MSG_TOUCH_EVENT ≠ c.MSG_STATUS_UPDATE ∧
  c.MSG_TOUCH_EVENT ≠ c.MSG_NOTIFICATION ∧ c.MSG_ESPNOW_DATA ≠ c.MSG_STATUS_UPDATE ∧
  c.MSG_ESPNOW_DATA ≠ c.MSG_NOTIFICATION ∧ c.MSG_STATUS_UPDATE ≠ c.MSG_NOTIFICATION

instance (c : Consts) : Decidable c.caseLabelsDistinct := by
  unfold Consts.caseLabelsDistinct; infer_instance

/-- The message types that have their own `case` in the `switch`. -/
def Consts.isHandledType (c : Consts) (msg_type : Nat) : Prop :=
  msg_type = c.MSG_TOUCH_EVENT ∨ msg_type = c.MSG_ESPNOW_DATA ∨
  msg_type = c.MSG_STATUS_UPDATE ∨ msg_type = c.MSG_NOTIFICATION

instance (c : Consts) (t : Nat) : Decidable (c.isHandledType t) := by
  unfold Consts.isHandledType; infer_instance

/-- The control message types. -/
def Consts.isControlType (c : Consts) (msg_type : Nat) : Prop :=
  msg_type = c.MSG_ACK ∨ msg_type = c.MSG_NACK

instance (c : Consts) (t : Nat) : Decidable (c.isControlType t) := by
  unfold Consts.isControlType; infer_instance

/-- Modelled from the spec: the values of the protocol constants are defined
in `protocol_types.h` and `config.h`, which are missing from the source tree.
This is one assignment in which device ids, message types and error codes are
small closed enumerations with the control types apart from the data types,
as the spec describes them.  It is used only to instantiate theorems that
hold for every assignment. -/
def sampleConsts : Consts where
  DEVICE_OWN_ID := 0x02
  DEVICE_DISPLAY := 0x03
  MSG_TOUCH_EVENT := 0x01
  MSG_ESPNOW_DATA := 0x02
  MSG_STATUS_UPDATE := 0x03
  MSG_NOTIFICATION := 0x04
  MSG_ACK := 0x7E
  MSG_NACK := 0x7F
  ERR_OK := 0
  ERR_UNKNOWN_TYPE := 1
  sizeof_ack_nack_t := 2
  sizeof_notification_t := 98

/-! ## Data passed to `interchip_send` -/

/-- The two fields of `ack_nack_t` that `main.c` initialises. -/
structure ack_nack_t where
  seq : Nat
  error_code : Nat
  deriving DecidableEq, Repr

/-- The four fields of `notification_t` that `main.c` initialises. -/
structure notification_t where
  severity : Nat
  duration_sec : Nat
  title : String
  message : String
  deriving DecidableEq, Repr

/-- The object whose address is handed to `interchip_send`. -/
inductive Payload where
  | ack_nack (a : ack_nack_t)
  | notification (n : notification_t)
  deriving DecidableEq, Repr

/-- One call `interchip_send(dest, msg_type, seq, &data, len)`. -/
structure SendCall where
  dest : Nat
  msg_type : Nat
  seq : Nat
  data : Payload
  len : Nat
  deriving DecidableEq, Repr

/-! ## Events -/

inductive LogLevel where
  | warn
  | info
  deriving DecidableEq, Repr

/-- The functions whose address `main.c` takes. -/
inductive Handler where
  | sample_packet_callback
  deriving DecidableEq, Repr

/-- The externally visible actions of `main.c`. -/
inductive Event where
  /-- Logging through `ESP_LOGW` / `ESP_LOGI` with tag, format string and arguments. -/
  | log (lvl : LogLevel) (tag : String) (fmt : String) (args : List Nat)
  /-- The call `ESP_LOG_BUFFER_HEX(tag, buf, len)`: dumps the first `len` bytes at `buf`. -/
  | log_buffer_hex (tag : String) (buf : List Nat) (len : Nat)
  /-- A call of `interchip_init()`. -/
  | interchip_init
  /-- The `abort()` of a failed `ESP_ERROR_CHECK`. -/
  | abort
  /-- The call `interchip_register_callback(cb, user_ctx)`; a pointer is an address. -/
  | interchip_register_callback (cb : Handler) (user_ctx : Nat)
  /-- The call `vTaskDelay(pdMS_TO_TICKS(ms))`. -/
  | vTaskDelay (ms : Nat)
  /-- A call of `interchip_send`. -/
  | interchip_send (s : SendCall)
  deriving DecidableEq, Repr

/-- The log tag, `static const char *TAG`. -/
def TAG : String := "APP_MAIN"

/-- The null pointer `NULL`. -/
def NULL : Nat := 0

/-- The success value `ESP_OK` of `esp_err_t`. -/
def ESP_OK : Int := 0

/-! ## `sample_packet_callback` -/

/-- The `switch (msg_type)` of `sample_packet_callback` (lines 39-65). -/
def dispatch (c : Consts) (source_device msg_type seq_number : Nat) : List Event :=
  if msg_type = c.MSG_TOUCH_EVENT then
    [ Event.log .info TAG "Handling touch event (e.g., for Chip A: forward to LVGL)" [],
      Event.interchip_send
        ⟨source_device, c.MSG_ACK, seq_number,
          .ack_nack ⟨seq_number, c.ERR_OK⟩, c.sizeof_ack_nack_t⟩ ]
  else if msg_type = c.MSG_ESPNOW_DATA then
    [ Event.log .info TAG "Handling ESP-NOW data (e.g., for Chip A: process sensor data)" [] ]
  else if msg_type = c.MSG_STATUS_UPDATE then
    [ Event.log .info TAG "Handling status update (e.g., for Chip C: update UI)" [] ]
  else if msg_type = c.MSG_NOTIFICATION then
    [ Event.log .info TAG "Handling notification (e.g., for Chip C: display popup)" [] ]
  else
    [ Event.log .warn TAG "Unhandled message type: 0x%02X" [msg_type],
      Event.interchip_send
        ⟨source_device, c.MSG_NACK, seq_number,
          .ack_nack ⟨seq_number, c.ERR_UNKNOWN_TYPE⟩, c.sizeof_ack_nack_t⟩ ]

/-- The optional payload dump (lines 33-36). -/
def payloadSnippet (payload : List Nat) (payload_len : Nat) : List Event :=
  if payload_len > 0 then
    [ Event.log_buffer_hex TAG payload (if payload_len > 16 then 16 else payload_len) ]
  else
    []

/-- The function `sample_packet_callback` (lines 16-66): the events of one invocation. -/
def sample_packet_callback (c : Consts)
    (source_device msg_type seq_number : Nat)
    (payload : List Nat) (payload_len : Nat) (user_ctx : Nat) : List Event :=
  if source_device = c.DEVICE_OWN_ID then
    [ Event.log .warn TAG "Ignoring self-sent packet (seq=%u)" [seq_number] ]
  else
    [ Event.log .info TAG "Received packet: from 0x%02X | type 0x%02X | seq %u | len %u"
        [source_device, msg_type, seq_number, payload_len] ]
    ++ payloadSnippet payload payload_len
    ++ dispatch c source_device msg_type seq_number

/-! ## `app_main` -/

/-- The `while (1)` loop of `app_main` (lines 91-94), run for `iterations` rounds. -/
def idleLoop : Nat → List Event
  | 0 => []
  | n + 1 => Event.vTaskDelay 1000 :: idleLoop n

/-- The local `notification_t test_notify` of `app_main` (lines 80-85). -/
def test_notify : notification_t where
  severity := 0
  duration_sec := 5
  title := "Test Notification"
  message := "Interchip comm is active!"

/-- The call of `interchip_send` in `app_main` (line 86). -/
def testSend (c : Consts) : SendCall :=
  ⟨c.DEVICE_DISPLAY, c.MSG_NOTIFICATION, 0, .notification test_notify, c.sizeof_notification_t⟩

/-- The function `app_main` (lines 68-95).  `init_ret` is what `interchip_init()` returns;
`ESP_ERROR_CHECK` aborts the program when that is not `ESP_OK`.  The function
never returns; `iterations` is the number of rounds of the final loop that
have been run, and the result is the events performed up to that point. -/
def app_main (c : Consts) (init_ret : Int) (iterations : Nat) : List Event :=
  if init_ret ≠ ESP_OK then
    [ Event.interchip_init, Event.abort ]
  else
    [ Event.interchip_init,
      Event.interchip_register_callback .sample_packet_callback NULL,
      Event.vTaskDelay 1000,
      Event.interchip_send (testSend c),
      Event.log .info TAG "Dummy main loop started. Monitoring for packets..." [] ]
    ++ idleLoop iterations

/-! ## Observations on event lists -/

/-- The `interchip_send` calls of an event list, in order. -/
def sends : List Event → List SendCall
  | [] => []
  | Event.interchip_send s :: es => s :: sends es
  | _ :: es => sends es

/-- The callback registrations of an event list, in order. -/
def registrations : List Event → List (Handler × Nat)
  | [] => []
  | Event.interchip_register_callback cb ctx :: es => (cb, ctx) :: registrations es
  | _ :: es => registrations es

/-- The hex dumps of an event list, in order: for each call of `ESP_LOG_BUFFER_HEX`
the buffer it was pointed at and the number of bytes it was told to dump. -/
def hexDumps : List Event → List (List Nat × Nat)
  | [] => []
  | Event.log_buffer_hex _ buf len :: es => (buf, len) :: hexDumps es
  | _ :: es => hexDumps es

/-- Reading `len` bytes from the start of `buf`: the bytes read, or `none` when the
read runs past the end of the buffer. -/
def readBuffer (buf : List Nat) (len : Nat) : Option (List Nat) :=
  if len ≤ buf.length then some (buf.take len) else none

/-- The bytes read by a sequence of dumps, or `none` when one of them reads past
the end of its buffer. -/
def readAll : List (List Nat × Nat) → Option (List Nat)
  | [] => some []
  | (buf, len) :: ds =>
    match readBuffer buf len, readAll ds with
    | some a, some b => some (a ++ b)
    | _, _ => none

/-- The bytes an event list hex-dumps, or `none` when a dump reads out of bounds. -/
def dumpedBytes (es : List Event) : Option (List Nat) :=
  readAll (hexDumps es)

/-- The calls into the `interchip_comm` component (init, registration, send), in order. -/
def componentCalls : List Event → List Event
  | [] => []
  | Event.interchip_init :: es => Event.interchip_init :: componentCalls es
  | Event.interchip_register_callback cb ctx :: es =>
      Event.interchip_register_callback cb ctx :: componentCalls es
  | Event.interchip_send s :: es => Event.interchip_send s :: componentCalls es
  | _ :: es => componentCalls es

/-! ## Helper lemmas -/

theorem sends_append (xs ys : List Event) : sends (xs ++ ys) = sends xs ++ sends ys := by
  induction xs with
  | nil => rfl
  | cons e es ih => cases e <;> simp [sends, ih]

theorem hexDumps_append (xs ys : List Event) :
    hexDumps (xs ++ ys) = hexDumps xs ++ hexDumps ys := by
  induction xs with
  | nil => rfl
  | cons e es ih => cases e <;> simp [hexDumps, ih]

theorem componentCalls_append (xs ys : List Event) :
    componentCalls (xs ++ ys) = componentCalls xs ++ componentCalls ys := by
  induction xs with
  | nil => rfl
  | cons e es ih => cases e <;> simp [componentCalls, ih]

theorem sends_payloadSnippet (payload : List Nat) (payload_len : Nat) :
    sends (payloadSnippet payload payload_len) = [] := by
  unfold payloadSnippet
  split <;> simp [sends]

theorem hexDumps_dispatch (c : Consts) (s t q : Nat) :
    hexDumps (dispatch c s t q) = [] := by
  unfold dispatch
  split_ifs <;> simp [hexDumps]

/-- For a packet of another device, the hex dumps of the callback are those of the
payload snippet: one dump of the payload buffer when `payload_len > 0`, else none. -/
theorem hexDumps_callback_of_ne (c : Consts) (s t q : Nat) (p : List Nat) (l u : Nat)
    (hs : s ≠ c.DEVICE_OWN_ID) :
    hexDumps (sample_packet_callback c s t q p l u)
      = if l = 0 then [] else [(p, min l 16)] := by
  simp only [sample_packet_callback, if_neg hs, hexDumps_append, hexDumps_dispatch,
    hexDumps, payloadSnippet, List.nil_append, List.append_nil]
  by_cases h0 : l = 0
  · simp [h0, hexDumps]
  · have hpos : l > 0 := Nat.pos_of_ne_zero h0
    by_cases h16 : l > 16
    · have hm : min l 16 = 16 := by omega
      simp [hpos, h16, h0, hm, hexDumps]
    · have hm : min l 16 = l := by omega
      simp [hpos, h16, h0, hm, hexDumps]

theorem componentCalls_idleLoop (n : Nat) : componentCalls (idleLoop n) = [] := by
  induction n with
  | zero => rfl
  | succ k ih => simp [idleLoop, componentCalls, ih]

/-- For a packet of another device, the sends of the callback are those of the `switch`. -/
theorem sends_callback_of_ne (c : Consts) (s t q : Nat) (p : List Nat) (l u : Nat)
    (hs : s ≠ c.DEVICE_OWN_ID) :
    sends (sample_packet_callback c s t q p l u) = sends (dispatch c s t q) := by
  simp [sample_packet_callback, hs, sends_append, sends_payloadSnippet, sends]

theorem sends_callback_self (c : Consts) (t q : Nat) (p : List Nat) (l u : Nat) :
    sends (sample_packet_callback c c.DEVICE_OWN_ID t q p l u) = [] := by
  simp [sample_packet_callback, sends]

/-! ## The callback: responses -/

/-- C7: an inbound `MSG_TOUCH_EVENT` from another device is answered by exactly one
`interchip_send`: to the source device, of type `MSG_ACK`, with the inbound sequence
number as header sequence, and a payload of `sizeof(ack_nack_t)` bytes holding
`seq` = inbound seq and `error_code = ERR_OK`; no send of type `MSG_NACK` is made. -/
theorem touch_event_acknowledged (c : Consts) (s q : Nat) (p : List Nat) (l u : Nat)
    (hs : s ≠ c.DEVICE_OWN_ID) (hctl : c.MSG_ACK ≠ c.MSG_NACK) :
    sends (sample_packet_callback c s c.MSG_TOUCH_EVENT q p l u)
        = [{ dest := s, msg_type := c.MSG_ACK, seq := q,
             data := .ack_nack { seq := q, error_code := c.ERR_OK },
             len := c.sizeof_ack_nack_t }]
      ∧ ∀ x ∈ sends (sample_packet_callback c s c.MSG_TOUCH_EVENT q p l u),
          x.msg_type ≠ c.MSG_NACK := by
  rw [sends_callback_of_ne c s _ q p l u hs]
  simp [dispatch, sends, hctl]

theorem touch_event_acknowledged_witness :
    sends (sample_packet_callback sampleConsts 0x01 sampleConsts.MSG_TOUCH_EVENT 9
            [0x10, 0x20] 2 0)
        = [{ dest := 0x01, msg_type := sampleConsts.MSG_ACK, seq := 9,
             data := .ack_nack { seq := 9, error_code := sampleConsts.ERR_OK },
             len := sampleConsts.sizeof_ack_nack_t }]
      ∧ ∀ x ∈ sends (sample_packet_callback sampleConsts 0x01 sampleConsts.MSG_TOUCH_EVENT 9
            [0x10, 0x20] 2 0),
          x.msg_type ≠ sampleConsts.MSG_NACK :=
  touch_event_acknowledged sampleConsts 0x01 9 [0x10, 0x20] 2 0 (by decide) (by decide)

/-- C1 (what the code does instead): an inbound `MSG_ESPNOW_DATA`, `MSG_STATUS_UPDATE`
or `MSG_NOTIFICATION` from another device is logged and answered by no
`interchip_send` at all, neither ACK nor NACK. -/
theorem data_types_without_response (c : Consts) (s t q : Nat) (p : List Nat) (l u : Nat)
    (hd : c.caseLabelsDistinct) (hs : s ≠ c.DEVICE_OWN_ID)
    (ht : t = c.MSG_ESPNOW_DATA ∨ t = c.MSG_STATUS_UPDATE ∨ t = c.MSG_NOTIFICATION) :
    sends (sample_packet_callback c s t q p l u) = [] := by
  rw [sends_callback_of_ne c s t q p l u hs]
  obtain ⟨h1, h2, h3, -, -, -⟩ := hd
  unfold dispatch
  rcases ht with ht | ht | ht <;> subst ht <;> split_ifs <;> simp_all [sends]

theorem data_types_without_response_witness :
    sends (sample_packet_callback sampleConsts 0x03 sampleConsts.MSG_NOTIFICATION 0
            [] 0 0) = [] :=
  data_types_without_response sampleConsts 0x03 sampleConsts.MSG_NOTIFICATION 0 [] 0 0
    (by decide) (by decide) (by decide)

/-- C2, as stated, fails: an inbound `MSG_ACK` from another device is answered
with an `interchip_send`. -/
theorem control_message_answered :
    sampleConsts.isControlType 0x7E ∧ (0x03 : Nat) ≠ sampleConsts.DEVICE_OWN_ID ∧
      sends (sample_packet_callback sampleConsts 0x03 0x7E 5 [] 0 0) ≠ [] := by
  decide

/-- C2 (amended): for a control message (`MSG_ACK` or `MSG_NACK`, neither being one of the
four `case` labels) the callback sends nothing when the source is `DEVICE_OWN_ID`;
from any other source the `switch` has no case for it and the `default` branch answers
with exactly one `MSG_NACK` carrying the inbound seq and `ERR_UNKNOWN_TYPE`. -/
theorem control_message_default_branch (c : Consts) (s t q : Nat) (p : List Nat) (l u : Nat)
    (ht : c.isControlType t) (hn : ¬ c.isHandledType t) :
    sends (sample_packet_callback c s t q p l u)
      = if s = c.DEVICE_OWN_ID then []
        else [{ dest := s, msg_type := c.MSG_NACK, seq := q,
                data := .ack_nack { seq := q, error_code := c.ERR_UNKNOWN_TYPE },
                len := c.sizeof_ack_nack_t }] := by
  simp only [Consts.isHandledType, not_or] at hn
  obtain ⟨h1, h2, h3, h4⟩ := hn
  by_cases hs : s = c.DEVICE_OWN_ID
  · subst hs
    simp [sends_callback_self]
  · rw [sends_callback_of_ne c s t q p l u hs]
    simp [dispatch, sends, h1, h2, h3, h4, hs]

theorem control_message_default_branch_witness :
    sends (sample_packet_callback sampleConsts 0x03 sampleConsts.MSG_NACK 5 [1, 7] 2 0)
      = if (0x03 : Nat) = sampleConsts.DEVICE_OWN_ID then []
        else [{ dest := 0x03, msg_type := sampleConsts.MSG_NACK, seq := 5,
                data := .ack_nack { seq := 5, error_code := sampleConsts.ERR_UNKNOWN_TYPE },
                len := sampleConsts.sizeof_ack_nack_t }] :=
  control_message_default_branch sampleConsts 0x03 sampleConsts.MSG_NACK 5 [1, 7] 2 0
    (by decide) (by decide)

/-- C3: a packet from another device whose type is neither one of the four handled
types nor a control type is answered by exactly one `interchip_send`: to the source
device, of type `MSG_NACK`, header seq = inbound seq, payload
`ack_nack_t` with `seq` = inbound seq and `error_code = ERR_UNKNOWN_TYPE`;
no send of type `MSG_ACK` is made. -/
theorem unknown_type_nacked (c : Consts) (s t q : Nat) (p : List Nat) (l u : Nat)
    (hs : s ≠ c.DEVICE_OWN_ID) (hn : ¬ c.isHandledType t) (hc : ¬ c.isControlType t)
    (hctl : c.MSG_ACK ≠ c.MSG_NACK) :
    sends (sample_packet_callback c s t q p l u)
        = [{ dest := s, msg_type := c.MSG_NACK, seq := q,
             data := .ack_nack { seq := q, error_code := c.ERR_UNKNOWN_TYPE },
             len := c.sizeof_ack_nack_t }]
      ∧ ∀ x ∈ sends (sample_packet_callback c s t q p l u), x.msg_type ≠ c.MSG_ACK := by
  simp only [Consts.isHandledType, not_or] at hn
  obtain ⟨h1, h2, h3, h4⟩ := hn
  rw [sends_callback_of_ne c s t q p l u hs]
  simp [dispatch, sends, h1, h2, h3, h4, Ne.symm hctl]

theorem unknown_type_nacked_witness :
    sends (sample_packet_callback sampleConsts 0x03 0xFF 7 [] 0 0)
        = [{ dest := 0x03, msg_type := sampleConsts.MSG_NACK, seq := 7,
             data := .ack_nack { seq := 7, error_code := sampleConsts.ERR_UNKNOWN_TYPE },
             len := sampleConsts.sizeof_ack_nack_t }]
      ∧ ∀ x ∈ sends (sample_packet_callback sampleConsts 0x03 0xFF 7 [] 0 0),
          x.msg_type ≠ sampleConsts.MSG_ACK :=
  unknown_type_nacked sampleConsts 0x03 0xFF 7 [] 0 0
    (by decide) (by decide) (by decide) (by decide)

/-- C4: a packet whose source is `DEVICE_OWN_ID` is dropped, whatever its type, seq,
payload and context: the whole invocation is the one warning log, it makes no
`interchip_send`, and no event of the message-type `switch` occurs in it. -/
theorem self_packet_dropped (c : Consts) (t q : Nat) (p : List Nat) (l u : Nat) :
    sample_packet_callback c c.DEVICE_OWN_ID t q p l u
        = [Event.log .warn TAG "Ignoring self-sent packet (seq=%u)" [q]]
      ∧ sends (sample_packet_callback c c.DEVICE_OWN_ID t q p l u) = []
      ∧ ∀ e ∈ dispatch c c.DEVICE_OWN_ID t q,
          e ∉ sample_packet_callback c c.DEVICE_OWN_ID t q p l u := by
  refine ⟨by simp [sample_packet_callback], sends_callback_self c t q p l u, ?_⟩
  intro e he hmem
  simp only [sample_packet_callback, if_true, List.mem_singleton] at hmem
  subst hmem
  unfold dispatch at he
  split_ifs at he <;> simp at he

/-- C8: for every input, one invocation of the callback makes at most one
`interchip_send`, and every send it makes has type `MSG_ACK` or `MSG_NACK`, goes to
the inbound source device (which is not `DEVICE_OWN_ID`), and carries the inbound
seq both as header sequence and as the `seq` field of its `ack_nack_t` payload. -/
theorem response_well_formed (c : Consts) (s t q : Nat) (p : List Nat) (l u : Nat) :
    (sends (sample_packet_callback c s t q p l u)).length ≤ 1
      ∧ ∀ x ∈ sends (sample_packet_callback c s t q p l u),
          (x.msg_type = c.MSG_ACK ∨ x.msg_type = c.MSG_NACK)
            ∧ x.dest = s ∧ x.dest ≠ c.DEVICE_OWN_ID ∧ x.seq = q
            ∧ ∃ code, x.data = .ack_nack { seq := q, error_code := code } := by
  by_cases hs : s = c.DEVICE_OWN_ID
  · subst hs
    simp [sends_callback_self]
  · rw [sends_callback_of_ne c s t q p l u hs]
    unfold dispatch
    split_ifs <;> simp [sends, hs]

/-- C9: the sends of the callback depend only on source device, message type and
sequence number: two invocations that agree on these make the same sends, whatever
their payload bytes, payload length and user context. -/
theorem payload_opacity (c : Consts) (s t q : Nat)
    (p p2 : List Nat) (l l2 u u2 : Nat) :
    sends (sample_packet_callback c s t q p l u)
      = sends (sample_packet_callback c s t q p2 l2 u2) := by
  by_cases hs : s = c.DEVICE_OWN_ID
  · subst hs
    rw [sends_callback_self, sends_callback_self]
  · rw [sends_callback_of_ne c s t q p l u hs, sends_callback_of_ne c s t q p2 l2 u2 hs]

/-- C10: for a packet of another device the callback hex-dumps the first
`min(payload_len, 16)` bytes of the payload it was given and nothing else: no dump
at all when `payload_len = 0`, otherwise one dump, of the payload buffer, of a length
that is at most 16 and at most `payload_len`.  So when the payload holds
`payload_len` bytes (or more) the dump never reads past it: the bytes read are
exactly the first `min(payload_len, 16)` payload bytes, `min(payload_len, 16)` many. -/
theorem dump_bounded (c : Consts) (s t q : Nat) (p : List Nat) (l u : Nat)
    (hs : s ≠ c.DEVICE_OWN_ID) :
    hexDumps (sample_packet_callback c s t q p l u)
        = (if l = 0 then [] else [(p, min l 16)])
      ∧ (∀ d ∈ hexDumps (sample_packet_callback c s t q p l u),
          d.1 = p ∧ d.2 = min l 16 ∧ d.2 ≤ 16 ∧ d.2 ≤ l)
      ∧ (l ≤ p.length →
          dumpedBytes (sample_packet_callback c s t q p l u) = some (p.take (min l 16))
            ∧ (p.take (min l 16)).length = min l 16
            ∧ (p.take (min l 16)).length ≤ 16
            ∧ (p.take (min l 16)).length ≤ l) := by
  have hd := hexDumps_callback_of_ne c s t q p l u hs
  refine ⟨hd, ?_, ?_⟩
  · intro d hmem
    rw [hd] at hmem
    by_cases h0 : l = 0
    · simp [h0] at hmem
    · simp only [h0, if_false, List.mem_singleton] at hmem
      subst hmem
      refine ⟨rfl, rfl, ?_, ?_⟩ <;> simp only <;> omega
  · intro hp
    have hlen : (p.take (min l 16)).length = min l 16 := by
      rw [List.length_take]
      omega
    refine ⟨?_, hlen, ?_, ?_⟩
    · unfold dumpedBytes
      rw [hd]
      by_cases h0 : l = 0
      · simp [h0, readAll]
      · have hle : min l 16 ≤ p.length := by omega
        simp [h0, readAll, readBuffer, hle]
    · rw [hlen]; omega
    · rw [hlen]; omega

theorem dump_bounded_witness :
    hexDumps (sample_packet_callback sampleConsts 0x03 0x01 4 (List.range 40) 40 0)
        = [(List.range 40, 16)]
      ∧ dumpedBytes (sample_packet_callback sampleConsts 0x03 0x01 4 (List.range 40) 40 0)
          = some (List.range 16) := by
  have h := dump_bounded sampleConsts 0x03 0x01 4 (List.range 40) 40 0 (by decide)
  have h3 := (h.2.2 (by decide)).1
  exact ⟨h.1, h3⟩

/-- The bound of the dump is `payload_len`, not the buffer: a caller that passes a
`payload_len` larger than the buffer it points at makes the dump read out of bounds. -/
theorem dump_trusts_payload_len :
    hexDumps (sample_packet_callback sampleConsts 0x03 0x01 4 [1, 2] 255 0) = [([1, 2], 16)]
      ∧ dumpedBytes (sample_packet_callback sampleConsts 0x03 0x01 4 [1, 2] 255 0) = none := by
  decide

/-! ## Start-up -/

/-- C5: when `interchip_init` returns `ESP_OK`, the calls `app_main` has made into the
component after any number of rounds of its idle loop are, in this order and each
once: `interchip_init`, `interchip_register_callback(sample_packet_callback, NULL)`,
and one `interchip_send` to `DEVICE_DISPLAY` of type `MSG_NOTIFICATION`, seq 0, with
a payload of `sizeof(notification_t)` bytes holding severity 0, duration 5 and the
two texts; the idle loop itself, which follows these start-up events, makes no call
into the component. -/
theorem app_main_startup (c : Consts) (iterations : Nat) :
    componentCalls (app_main c ESP_OK iterations)
        = [ Event.interchip_init,
            Event.interchip_register_callback .sample_packet_callback NULL,
            Event.interchip_send
              { dest := c.DEVICE_DISPLAY, msg_type := c.MSG_NOTIFICATION, seq := 0,
                data := .notification
                  { severity := 0, duration_sec := 5, title := "Test Notification",
                    message := "Interchip comm is active!" },
                len := c.sizeof_notification_t } ]
      ∧ componentCalls (idleLoop iterations) = []
      ∧ app_main c ESP_OK iterations = app_main c ESP_OK 0 ++ idleLoop iterations := by
  refine ⟨?_, componentCalls_idleLoop iterations, ?_⟩
  · simp [app_main, componentCalls_append, componentCalls_idleLoop, componentCalls,
      testSend, test_notify]
  · simp [app_main, idleLoop]

/-- C6: when `interchip_init` returns anything but `ESP_OK`, `app_main` stops in the
`abort` of `ESP_ERROR_CHECK`: it registers no callback and makes no `interchip_send`. -/
theorem app_main_init_failure (c : Consts) (init_ret : Int) (iterations : Nat)
    (h : init_ret ≠ ESP_OK) :
    app_main c init_ret iterations = [Event.interchip_init, Event.abort]
      ∧ registrations (app_main c init_ret iterations) = []
      ∧ sends (app_main c init_ret iterations) = [] := by
  simp [app_main, h, registrations, sends]

theorem app_main_init_failure_witness :
    app_main sampleConsts (-1) 3 = [Event.interchip_init, Event.abort]
      ∧ registrations (app_main sampleConsts (-1) 3) = []
      ∧ sends (app_main sampleConsts (-1) 3) = [] :=
  app_main_init_failure sampleConsts (-1) 3 (by decide)

end ChipB
